import Mathlib

/-!
Verification of the consensus aggregation engine of the aggregated-signals
endpoint (`src/endpoints/aggregated_endpoint.py`).

The engine receives a `sources` map (a Python dict, modelled here as an
association list in insertion order, since Python dicts iterate in insertion
order) from provider name to that provider's result payload.  The payloads are
dicts; the engine reads only a fixed handful of keys from them, so each payload
is modelled as a structure with one `Option` field per key the engine reads
(a `none` field models an absent key).
-/

namespace VercelDeployment

/-- One entry of the tick-data provider's ordered signal list
(`signals_list[0].get('recommendation', 'NEUTRAL')` /
`signals_list[0].get('confidence', 'LOW')`). -/
structure SigEntry where
  recommendation : Option String
  confidence : Option String
deriving Repr, DecidableEq

/-- The nested `'signals'` object of a payload.  The engine reads
`'recommendation'` and `'confidence'` from it for the price-series providers
(alphavantage / twelvedata) and the nested `'signals'` list for truefx.
Numbers never occur on the paths the engine reads here. -/
structure SignalsObj where
  recommendation : Option String
  confidence : Option String
  signals : Option (List SigEntry)
deriving Repr, DecidableEq

/-- The nested `'summary'` object of the tradingview payload: the engine reads
`'recommendation'`, `'buy_signals'` and `'sell_signals'` from it.  Signal
counts are modelled as rationals (Python ints/floats compared against the
literal `1.5`; all comparisons the code performs are exact at these values). -/
structure Summary where
  recommendation : Option String
  buy_signals : Option ℚ
  sell_signals : Option ℚ
deriving Repr, DecidableEq

/-- One provider's result payload, restricted to the keys
`_calculate_consensus` and `_generate_summary` read: the `'error'` marker
(`'error' in source_data`), the `'summary'` object and the `'signals'`
object.  An absent key is `none`. -/
structure SourceData where
  error : Option String
  summary : Option Summary
  signals : Option SignalsObj
deriving Repr, DecidableEq

/-- The consensus dictionary returned by `_calculate_consensus`
(lines 259-267 of `aggregated_endpoint.py`). -/
structure Consensus where
  overall_recommendation : String
  buy_votes : Nat
  sell_votes : Nat
  neutral_votes : Nat
  total_sources : Nat
  average_confidence : String
  agreement_level : String
deriving Repr, DecidableEq

/-- Python truthiness of the `Optional[str]` variable `recommendation` at the
`if recommendation:` guard (line 213): `None` and the empty string are falsy. -/
def pyTruthy : Option String → Bool
  | none => false
  | some s => s ≠ ""

/-- Python `str.upper()` on the ASCII recommendation strings the engine
handles (character-wise uppercasing). -/
def pyUpper (s : String) : String := ⟨s.data.map Char.toUpper⟩

/-- Python `str.title()` on the single all-lowercase provider names the code
applies it to (`'alphavantage'.title() = 'Alphavantage'`, likewise
`'twelvedata'`): capitalize the first letter. -/
def pyTitle (s : String) : String := s.capitalize

/-- The per-source extraction (lines 177-215 of `_calculate_consensus`): start
from `recommendation = None`, `confidence = 'LOW'`, then dispatch on the
source name.  Returns the pair of variables just before the
`if recommendation:` guard. -/
def rawExtract (name : String) (d : SourceData) : Option String × String :=
  if name = "tradingview" then
    -- `'summary' in source_data and 'recommendation' in source_data['summary']`
    match d.summary with
    | some sm =>
      match sm.recommendation with
      | some rec =>
        let buy := sm.buy_signals.getD 0
        let sell := sm.sell_signals.getD 0
        let conf :=
          if buy > sell * (3 / 2 : ℚ) then "HIGH"
          else if sell > buy * (3 / 2 : ℚ) then "HIGH"
          else "MEDIUM"
        (some rec, conf)
      | none => (none, "LOW")
    | none => (none, "LOW")
  else if name = "alphavantage" then
    match d.signals with
    | some sg =>
      match sg.recommendation with
      | some rec => (some rec, sg.confidence.getD "LOW")
      | none => (none, "LOW")
    | none => (none, "LOW")
  else if name = "twelvedata" then
    match d.signals with
    | some sg =>
      match sg.recommendation with
      | some rec => (some rec, sg.confidence.getD "LOW")
      | none => (none, "LOW")
    | none => (none, "LOW")
  else if name = "truefx" then
    -- `'signals' in source_data and 'signals' in source_data['signals']`,
    -- then `if signals_list:` on the nested list
    match d.signals with
    | some sg =>
      match sg.signals with
      | some (e :: _) =>
        (some (e.recommendation.getD "NEUTRAL"), e.confidence.getD "LOW")
      | some [] => (none, "LOW")
      | none => (none, "LOW")
    | none => (none, "LOW")
  else (none, "LOW")

/-- Full extraction for one `(source_name, source_data)` item of the loop:
sources with an `'error'` key are skipped (line 174), and a signal is recorded
only when the extracted recommendation is truthy, at which point it is
uppercased (lines 213-215).  Yields the `(recommendation.upper(), confidence)`
pair appended to the two parallel lists, or `none` when the source is skipped. -/
def extract (name : String) (d : SourceData) : Option (String × String) :=
  if d.error.isSome then none
  else
    let rc := rawExtract name d
    match rc.1 with
    | some r => if r ≠ "" then some (pyUpper r, rc.2) else none
    | none => none

/-- The confidence weight lookup `confidence_map.get(c, 1)` with
`confidence_map = {'LOW': 1, 'MEDIUM': 2, 'HIGH': 3}` (lines 231-233):
any string outside the map weighs 1. -/
def confidenceMap (c : String) : ℚ :=
  if c = "LOW" then 1 else if c = "MEDIUM" then 2 else if c = "HIGH" then 3 else 1

/-- The vote-tallying and classification part of `_calculate_consensus`
(lines 217-267), applied to the list of extracted
`(recommendation, confidence)` pairs (the code keeps two parallel lists
`recommendations` / `confidences`; here they are the two projections). -/
def consensusOfSignals (sigs : List (String × String)) : Consensus :=
  let recommendations := sigs.map Prod.fst
  let confidences := sigs.map Prod.snd
  let buy_votes := recommendations.count "BUY"
  let sell_votes := recommendations.count "SELL"
  let neutral_votes := recommendations.count "NEUTRAL"
  let overall_recommendation :=
    if buy_votes > sell_votes ∧ buy_votes > neutral_votes then "BUY"
    else if sell_votes > buy_votes ∧ sell_votes > neutral_votes then "SELL"
    else "NEUTRAL"
  let average_confidence :=
    if confidences.isEmpty then "LOW"
    else
      let avg : ℚ := (confidences.map confidenceMap).sum / (confidences.length : ℚ)
      if avg ≥ 5 / 2 then "HIGH"
      else if avg ≥ 3 / 2 then "MEDIUM"
      else "LOW"
  let total_votes := recommendations.length
  let agreement_level :=
    if total_votes = 0 then "NO_DATA"
    else if total_votes = 1 then "SINGLE_SOURCE"
    else
      let max_votes := max buy_votes (max sell_votes neutral_votes)
      let agreement_ratio : ℚ := (max_votes : ℚ) / (total_votes : ℚ)
      if agreement_ratio ≥ 3 / 4 then "STRONG_AGREEMENT"
      else if agreement_ratio ≥ 1 / 2 then "MODERATE_AGREEMENT"
      else "MIXED_SIGNALS"
  { overall_recommendation := overall_recommendation
    buy_votes := buy_votes
    sell_votes := sell_votes
    neutral_votes := neutral_votes
    total_sources := total_votes
    average_confidence := average_confidence
    agreement_level := agreement_level }

/-- `AggregatedSignals._calculate_consensus`: extract a signal from each entry
of the sources map in iteration order, then tally. -/
def calculateConsensus (sources : List (String × SourceData)) : Consensus :=
  consensusOfSignals (sources.filterMap fun p => extract p.1 p.2)

/-- `AggregatedSignals._generate_summary` (lines 281-298): four consensus
fragments, then one fragment per non-error source in map iteration order —
tradingview sources with a `'summary'` object, alphavantage/twelvedata
sources with a `'signals'` object; everything joined with `" | "`. -/
def generateSummary (sources : List (String × SourceData)) (consensus : Consensus) : String :=
  let base : List String := [
    "Consensus Recommendation: " ++ consensus.overall_recommendation,
    "Agreement Level: " ++ consensus.agreement_level,
    "Votes - BUY: " ++ toString consensus.buy_votes ++ ", SELL: " ++
      toString consensus.sell_votes ++ ", NEUTRAL: " ++ toString consensus.neutral_votes,
    "Average Confidence: " ++ consensus.average_confidence]
  let srcParts : List String := sources.filterMap fun p =>
    if p.2.error.isSome then none
    else if p.1 = "tradingview" then
      match p.2.summary with
      | some sm => some ("TradingView: " ++ sm.recommendation.getD "N/A")
      | none => none
    else if p.1 = "alphavantage" ∨ p.1 = "twelvedata" then
      match p.2.signals with
      | some sg => some (pyTitle p.1 ++ ": " ++ sg.recommendation.getD "N/A")
      | none => none
    else none
  String.intercalate " | " (base ++ srcParts)

/-!
A kernel-computable characterization of `consensusOfSignals`: the rational
threshold comparisons are replaced by the equivalent cross-multiplied natural
number comparisons.  `consensusNat` is proved equal to `consensusOfSignals`
below and is used to evaluate concrete instances.
-/

/-- Natural-number version of the confidence weight table. -/
def natWeight (c : String) : Nat :=
  if c = "LOW" then 1 else if c = "MEDIUM" then 2 else if c = "HIGH" then 3 else 1

/-- `consensusOfSignals` with the mean/ratio threshold tests in
cross-multiplied integer form (`S/n ≥ 5/2 ↔ 5n ≤ 2S`, etc.). -/
def consensusNat (sigs : List (String × String)) : Consensus :=
  let recommendations := sigs.map Prod.fst
  let confidences := sigs.map Prod.snd
  let buy_votes := recommendations.count "BUY"
  let sell_votes := recommendations.count "SELL"
  let neutral_votes := recommendations.count "NEUTRAL"
  let overall_recommendation :=
    if buy_votes > sell_votes ∧ buy_votes > neutral_votes then "BUY"
    else if sell_votes > buy_votes ∧ sell_votes > neutral_votes then "SELL"
    else "NEUTRAL"
  let average_confidence :=
    if confidences.isEmpty then "LOW"
    else
      let wsum := (confidences.map natWeight).sum
      if 5 * confidences.length ≤ 2 * wsum then "HIGH"
      else if 3 * confidences.length ≤ 2 * wsum then "MEDIUM"
      else "LOW"
  let total_votes := recommendations.length
  let agreement_level :=
    if total_votes = 0 then "NO_DATA"
    else if total_votes = 1 then "SINGLE_SOURCE"
    else
      let max_votes := max buy_votes (max sell_votes neutral_votes)
      if 3 * total_votes ≤ 4 * max_votes then "STRONG_AGREEMENT"
      else if total_votes ≤ 2 * max_votes then "MODERATE_AGREEMENT"
      else "MIXED_SIGNALS"
  { overall_recommendation := overall_recommendation
    buy_votes := buy_votes
    sell_votes := sell_votes
    neutral_votes := neutral_votes
    total_sources := total_votes
    average_confidence := average_confidence
    agreement_level := agreement_level }

lemma confidenceMap_eq_natWeight (c : String) : confidenceMap c = (natWeight c : ℚ) := by
  simp only [confidenceMap, natWeight]
  split_ifs <;> norm_num

lemma sum_confidenceMap (l : List String) :
    (l.map confidenceMap).sum = ((l.map natWeight).sum : ℚ) := by
  induction l with
  | nil => simp
  | cons a t ih =>
    simp only [List.map_cons, List.sum_cons, ih, confidenceMap_eq_natWeight]
    push_cast
    ring

/-- Cross-multiplication form of the rational threshold tests used by the
source code: for naturals, `S/n ≥ a/b ↔ a·n ≤ b·S` when `b, n > 0`. -/
lemma ge_frac_iff (a b S n : ℕ) (hb : 0 < b) (hn : 0 < n) :
    ((S : ℚ) / (n : ℚ) ≥ (a : ℚ) / (b : ℚ)) ↔ a * n ≤ b * S := by
  rw [ge_iff_le,
    div_le_div_iff₀ (by exact_mod_cast hb) (show (0 : ℚ) < (n : ℚ) by exact_mod_cast hn)]
  constructor
  · intro h'
    have h2 : (a : ℚ) * n ≤ (b : ℚ) * S := by linarith
    exact_mod_cast h2
  · intro h'
    have h2 : (a : ℚ) * n ≤ (b : ℚ) * S := by exact_mod_cast h'
    linarith

lemma consensusOfSignals_eq_consensusNat (sigs : List (String × String)) :
    consensusOfSignals sigs = consensusNat sigs := by
  unfold consensusOfSignals consensusNat
  simp only [Consensus.mk.injEq, true_and]
  refine ⟨?_, ?_⟩
  · -- average confidence field
    by_cases h : (sigs.map Prod.snd).isEmpty
    · simp [h]
    · have hne : sigs.map Prod.snd ≠ [] := by simpa [List.isEmpty_iff] using h
      have hlen : 0 < (sigs.map Prod.snd).length := List.length_pos.mpr hne
      rw [if_neg h, if_neg h, sum_confidenceMap]
      have h52 := ge_frac_iff 5 2 ((sigs.map Prod.snd).map natWeight).sum
        (sigs.map Prod.snd).length (by norm_num) hlen
      have h32 := ge_frac_iff 3 2 ((sigs.map Prod.snd).map natWeight).sum
        (sigs.map Prod.snd).length (by norm_num) hlen
      simp only [Nat.cast_ofNat] at h52 h32
      exact if_congr h52 rfl (if_congr h32 rfl rfl)
  · -- agreement level field
    by_cases h0 : (sigs.map Prod.fst).length = 0
    · simp [h0]
    · by_cases h1 : (sigs.map Prod.fst).length = 1
      · simp [h0, h1]
      · have hlen : 0 < (sigs.map Prod.fst).length := Nat.pos_of_ne_zero h0
        rw [if_neg h0, if_neg h0, if_neg h1, if_neg h1]
        have h34 := ge_frac_iff 3 4
          (max ((sigs.map Prod.fst).count "BUY") (max ((sigs.map Prod.fst).count "SELL")
            ((sigs.map Prod.fst).count "NEUTRAL")))
          (sigs.map Prod.fst).length (by norm_num) hlen
        have h12 := ge_frac_iff 1 2
          (max ((sigs.map Prod.fst).count "BUY") (max ((sigs.map Prod.fst).count "SELL")
            ((sigs.map Prod.fst).count "NEUTRAL")))
          (sigs.map Prod.fst).length (by norm_num) hlen
        simp only [Nat.cast_ofNat] at h34 h12
        simp only [Nat.cast_one, one_mul] at h12
        exact if_congr h34 rfl (if_congr h12 rfl rfl)


/-- `calculateConsensus` through the computable characterization. -/
lemma calculateConsensus_eq (sources : List (String × SourceData)) :
    calculateConsensus sources = consensusNat (sources.filterMap fun p => extract p.1 p.2) := by
  rw [calculateConsensus, consensusOfSignals_eq_consensusNat]

/-! Definitional projections of `consensusOfSignals`. -/

lemma buy_votes_eq (sigs : List (String × String)) :
    (consensusOfSignals sigs).buy_votes = (sigs.map Prod.fst).count "BUY" := rfl

lemma sell_votes_eq (sigs : List (String × String)) :
    (consensusOfSignals sigs).sell_votes = (sigs.map Prod.fst).count "SELL" := rfl

lemma neutral_votes_eq (sigs : List (String × String)) :
    (consensusOfSignals sigs).neutral_votes = (sigs.map Prod.fst).count "NEUTRAL" := rfl

lemma total_sources_eq (sigs : List (String × String)) :
    (consensusOfSignals sigs).total_sources = sigs.length := by
  show (sigs.map Prod.fst).length = sigs.length
  exact List.length_map sigs Prod.fst

lemma overall_eq (sigs : List (String × String)) :
    (consensusOfSignals sigs).overall_recommendation =
      (if (sigs.map Prod.fst).count "BUY" > (sigs.map Prod.fst).count "SELL" ∧
          (sigs.map Prod.fst).count "BUY" > (sigs.map Prod.fst).count "NEUTRAL" then "BUY"
       else if (sigs.map Prod.fst).count "SELL" > (sigs.map Prod.fst).count "BUY" ∧
          (sigs.map Prod.fst).count "SELL" > (sigs.map Prod.fst).count "NEUTRAL" then "SELL"
       else "NEUTRAL") := rfl

lemma average_confidence_eq (sigs : List (String × String)) :
    (consensusOfSignals sigs).average_confidence =
      (if (sigs.map Prod.snd).isEmpty then "LOW"
       else
        if ((sigs.map Prod.snd).map confidenceMap).sum / ((sigs.map Prod.snd).length : ℚ) ≥
            5 / 2 then "HIGH"
        else if ((sigs.map Prod.snd).map confidenceMap).sum / ((sigs.map Prod.snd).length : ℚ) ≥
            3 / 2 then "MEDIUM"
        else "LOW") := rfl

lemma agreement_level_eq (sigs : List (String × String)) :
    (consensusOfSignals sigs).agreement_level =
      (if (sigs.map Prod.fst).length = 0 then "NO_DATA"
       else if (sigs.map Prod.fst).length = 1 then "SINGLE_SOURCE"
       else
        if ((max ((sigs.map Prod.fst).count "BUY") (max ((sigs.map Prod.fst).count "SELL")
              ((sigs.map Prod.fst).count "NEUTRAL")) : ℕ) : ℚ) /
            ((sigs.map Prod.fst).length : ℚ) ≥ 3 / 4 then "STRONG_AGREEMENT"
        else if ((max ((sigs.map Prod.fst).count "BUY") (max ((sigs.map Prod.fst).count "SELL")
              ((sigs.map Prod.fst).count "NEUTRAL")) : ℕ) : ℚ) /
            ((sigs.map Prod.fst).length : ℚ) ≥ 1 / 2 then "MODERATE_AGREEMENT"
        else "MIXED_SIGNALS") := rfl

/-- Any list of recommendation strings drawn from the three recognized values
has its three counts summing to its length. -/
lemma count_three (l : List String)
    (h : ∀ r ∈ l, r = "BUY" ∨ r = "SELL" ∨ r = "NEUTRAL") :
    l.count "BUY" + l.count "SELL" + l.count "NEUTRAL" = l.length := by
  induction l with
  | nil => simp
  | cons a t ih =>
    have ha := h a (by simp)
    have ht : ∀ r ∈ t, r = "BUY" ∨ r = "SELL" ∨ r = "NEUTRAL" :=
      fun r hr => h r (by simp [hr])
    have iht := ih ht
    rcases ha with h1 | h1 | h1 <;> subst h1 <;>
      simp [List.count_cons] <;> omega

/-! Concrete payloads used in counterexamples and witnesses. -/

/-- A tradingview payload whose summary carries the recommendation
`STRONG_BUY` (a value the tradingview-ta library really returns). -/
def strongBuyData : SourceData := ⟨none, some ⟨some "STRONG_BUY", some 10, some 2⟩, none⟩

/-- A price-series payload (alphavantage/twelvedata shape) with the given
recommendation and confidence in its `'signals'` object. -/
def avData (r c : String) : SourceData := ⟨none, none, some ⟨some r, some c, none⟩⟩

/-- A truefx payload whose nested signal sequence is empty. -/
def emptyTickData : SourceData := ⟨none, none, some ⟨none, none, some []⟩⟩

lemma extract_strongBuy : extract "tradingview" strongBuyData = some ("STRONG_BUY", "HIGH") := by
  norm_num [strongBuyData, extract, rawExtract]
  decide

/-- C1 counterexample: a sources map whose tradingview summary recommends
`STRONG_BUY` produces `total_sources = 1` but zero votes in each of the three
categories, so the claimed invariant fails. -/
theorem C1_counterexample :
    (calculateConsensus [("tradingview", strongBuyData)]).buy_votes +
      (calculateConsensus [("tradingview", strongBuyData)]).sell_votes +
      (calculateConsensus [("tradingview", strongBuyData)]).neutral_votes ≠
      (calculateConsensus [("tradingview", strongBuyData)]).total_sources := by
  have hc : calculateConsensus [("tradingview", strongBuyData)] =
      consensusNat [("STRONG_BUY", "HIGH")] := by
    rw [calculateConsensus_eq]
    simp [List.filterMap_cons, extract_strongBuy]
  rw [hc]
  decide

/-- C1 (amended): whenever every extracted recommendation (after uppercasing)
is one of BUY, SELL, NEUTRAL, the consensus satisfies
`buy_votes + sell_votes + neutral_votes = total_sources`. -/
theorem C1_vote_sum (sources : List (String × SourceData))
    (h : ∀ s ∈ sources.filterMap (fun p => extract p.1 p.2),
      s.1 = "BUY" ∨ s.1 = "SELL" ∨ s.1 = "NEUTRAL") :
    (calculateConsensus sources).buy_votes + (calculateConsensus sources).sell_votes +
      (calculateConsensus sources).neutral_votes = (calculateConsensus sources).total_sources := by
  rw [calculateConsensus]
  rw [buy_votes_eq, sell_votes_eq, neutral_votes_eq, total_sources_eq]
  have htri : ∀ r ∈ (sources.filterMap (fun p => extract p.1 p.2)).map Prod.fst,
      r = "BUY" ∨ r = "SELL" ∨ r = "NEUTRAL" := by
    intro r hr
    rw [List.mem_map] at hr
    obtain ⟨s, hs, rfl⟩ := hr
    exact h s hs
  rw [count_three _ htri, List.length_map]

/-- C1 witness: the amended invariant at a concrete two-source map. -/
theorem C1_witness :
    (∀ s ∈ ([("alphavantage", avData "BUY" "HIGH"), ("twelvedata", avData "SELL" "LOW")] :
        List (String × SourceData)).filterMap (fun p => extract p.1 p.2),
      s.1 = "BUY" ∨ s.1 = "SELL" ∨ s.1 = "NEUTRAL") ∧
    (calculateConsensus [("alphavantage", avData "BUY" "HIGH"),
        ("twelvedata", avData "SELL" "LOW")]).buy_votes +
      (calculateConsensus [("alphavantage", avData "BUY" "HIGH"),
        ("twelvedata", avData "SELL" "LOW")]).sell_votes +
      (calculateConsensus [("alphavantage", avData "BUY" "HIGH"),
        ("twelvedata", avData "SELL" "LOW")]).neutral_votes =
      (calculateConsensus [("alphavantage", avData "BUY" "HIGH"),
        ("twelvedata", avData "SELL" "LOW")]).total_sources :=
  ⟨by decide, C1_vote_sum _ (by decide)⟩

/-- C2 counterexample: an alphavantage payload recommending `HOLD` is not
rejected — it yields a signal, is counted in `total_sources`, and its MEDIUM
confidence drives the average-confidence mean, while contributing to no
vote count. -/
theorem C2_counterexample :
    extract "alphavantage" (avData "HOLD" "MEDIUM") = some ("HOLD", "MEDIUM") ∧
    (calculateConsensus [("alphavantage", avData "HOLD" "MEDIUM")]).total_sources = 1 ∧
    (calculateConsensus [("alphavantage", avData "HOLD" "MEDIUM")]).average_confidence =
      "MEDIUM" ∧
    (calculateConsensus [("alphavantage", avData "HOLD" "MEDIUM")]).buy_votes = 0 ∧
    (calculateConsensus [("alphavantage", avData "HOLD" "MEDIUM")]).sell_votes = 0 ∧
    (calculateConsensus [("alphavantage", avData "HOLD" "MEDIUM")]).neutral_votes = 0 := by
  refine ⟨by decide, ?_, ?_, ?_, ?_, ?_⟩ <;> (rw [calculateConsensus_eq]; decide)

/-- C2 (amended): a source whose extracted recommendation is not one of BUY,
SELL, NEUTRAL still yields a signal: it enters the extracted-signal list (so
its confidence enters the average-confidence mean), increments
`total_sources`, and leaves all three vote counts unchanged. -/
theorem C2_unrecognized (l1 l2 : List (String × SourceData)) (name : String) (d : SourceData)
    (rec conf : String) (hx : extract name d = some (rec, conf))
    (hb : rec ≠ "BUY") (hs : rec ≠ "SELL") (hn : rec ≠ "NEUTRAL") :
    (l1 ++ (name, d) :: l2).filterMap (fun p => extract p.1 p.2) =
      (l1.filterMap fun p => extract p.1 p.2) ++ (rec, conf) ::
        (l2.filterMap fun p => extract p.1 p.2) ∧
    (calculateConsensus (l1 ++ (name, d) :: l2)).buy_votes =
      (calculateConsensus (l1 ++ l2)).buy_votes ∧
    (calculateConsensus (l1 ++ (name, d) :: l2)).sell_votes =
      (calculateConsensus (l1 ++ l2)).sell_votes ∧
    (calculateConsensus (l1 ++ (name, d) :: l2)).neutral_votes =
      (calculateConsensus (l1 ++ l2)).neutral_votes ∧
    (calculateConsensus (l1 ++ (name, d) :: l2)).total_sources =
      (calculateConsensus (l1 ++ l2)).total_sources + 1 := by
  have hdec : (l1 ++ (name, d) :: l2).filterMap (fun p => extract p.1 p.2) =
      (l1.filterMap fun p => extract p.1 p.2) ++ (rec, conf) ::
        (l2.filterMap fun p => extract p.1 p.2) := by
    rw [List.filterMap_append, List.filterMap_cons, hx]
  have hdec' : (l1 ++ l2).filterMap (fun p => extract p.1 p.2) =
      (l1.filterMap fun p => extract p.1 p.2) ++ (l2.filterMap fun p => extract p.1 p.2) :=
    List.filterMap_append _ _ _
  refine ⟨hdec, ?_, ?_, ?_, ?_⟩ <;>
    simp only [calculateConsensus, buy_votes_eq, sell_votes_eq, neutral_votes_eq,
      total_sources_eq, hdec, hdec', List.map_append, List.map_cons, List.count_append,
      List.count_cons, List.length_append, List.length_cons]
  · simp [hb]
  · simp [hs]
  · simp [hn]
  · omega

/-- C2 witness: the amended behavior at a concrete map containing a `HOLD`
source between two recognized ones. -/
theorem C2_witness :
    (calculateConsensus [("alphavantage", avData "BUY" "HIGH"),
        ("twelvedata", avData "HOLD" "MEDIUM")]).buy_votes =
      (calculateConsensus [("alphavantage", avData "BUY" "HIGH")]).buy_votes ∧
    (calculateConsensus [("alphavantage", avData "BUY" "HIGH"),
        ("twelvedata", avData "HOLD" "MEDIUM")]).total_sources =
      (calculateConsensus [("alphavantage", avData "BUY" "HIGH")]).total_sources + 1 :=
  ⟨(C2_unrecognized [("alphavantage", avData "BUY" "HIGH")] [] "twelvedata"
      (avData "HOLD" "MEDIUM") "HOLD" "MEDIUM" (by decide) (by decide) (by decide)
      (by decide)).2.1,
   (C2_unrecognized [("alphavantage", avData "BUY" "HIGH")] [] "twelvedata"
      (avData "HOLD" "MEDIUM") "HOLD" "MEDIUM" (by decide) (by decide) (by decide)
      (by decide)).2.2.2.2⟩

/-- C3 counterexample: a truefx payload with an empty signal sequence yields
no signal at all — no default NEUTRAL vote is contributed, and a map holding
only this source has zero used sources. -/
theorem C3_counterexample :
    extract "truefx" emptyTickData = none ∧
    (calculateConsensus [("truefx", emptyTickData)]).neutral_votes = 0 ∧
    (calculateConsensus [("truefx", emptyTickData)]).total_sources = 0 ∧
    (calculateConsensus [("truefx", emptyTickData)]).agreement_level = "NO_DATA" := by
  refine ⟨by decide, ?_, ?_, ?_⟩ <;> (rw [calculateConsensus_eq]; decide)

/-- C3 (amended): for the truefx provider, an empty signal sequence means the
provider abstains (no signal); a non-empty sequence uses the first entry,
defaulting a missing recommendation key to NEUTRAL and a missing confidence
key to LOW. -/
theorem C3_truefx_first (sm : Option Summary) (sg : SignalsObj) :
    (sg.signals = some [] → extract "truefx" ⟨none, sm, some sg⟩ = none) ∧
    (∀ e rest, sg.signals = some (e :: rest) → e.recommendation.getD "NEUTRAL" ≠ "" →
      extract "truefx" ⟨none, sm, some sg⟩ =
        some (pyUpper (e.recommendation.getD "NEUTRAL"), e.confidence.getD "LOW")) := by
  constructor
  · intro hempty
    simp [extract, rawExtract, hempty]
  · intro e rest hcons hne
    simp [extract, rawExtract, hcons, hne]

/-- C3 witness: the amended behavior at concrete truefx payloads. -/
theorem C3_witness :
    extract "truefx" ⟨none, none, some ⟨none, none, some []⟩⟩ = none ∧
    extract "truefx" ⟨none, none, some ⟨none, none, some [⟨some "buy", some "HIGH"⟩]⟩⟩ =
      some ("BUY", "HIGH") ∧
    extract "truefx" ⟨none, none, some ⟨none, none, some [⟨none, none⟩]⟩⟩ =
      some ("NEUTRAL", "LOW") := by
  refine ⟨(C3_truefx_first none ⟨none, none, some []⟩).1 rfl, ?_, ?_⟩
  · exact ((C3_truefx_first none ⟨none, none, some [⟨some "buy", some "HIGH"⟩]⟩).2
      ⟨some "buy", some "HIGH"⟩ [] rfl (by decide)).trans (by decide)
  · exact ((C3_truefx_first none ⟨none, none, some [⟨none, none⟩]⟩).2
      ⟨none, none⟩ [] rfl (by decide)).trans (by decide)

/-- Definitional form of the overall recommendation in terms of the consensus
projections themselves. -/
lemma overall_proj (sigs : List (String × String)) :
    (consensusOfSignals sigs).overall_recommendation =
      (if (consensusOfSignals sigs).buy_votes > (consensusOfSignals sigs).sell_votes ∧
          (consensusOfSignals sigs).buy_votes > (consensusOfSignals sigs).neutral_votes
       then "BUY"
       else if (consensusOfSignals sigs).sell_votes > (consensusOfSignals sigs).buy_votes ∧
          (consensusOfSignals sigs).sell_votes > (consensusOfSignals sigs).neutral_votes
       then "SELL"
       else "NEUTRAL") := rfl

/-- C4: the overall recommendation is the strictly dominant vote count when one
exists, NEUTRAL whenever no count strictly dominates both others, and for a
single signal it equals that signal's recommendation. -/
theorem C4_overall_recommendation (sigs : List (String × String))
    (hall : ∀ p ∈ sigs, p.1 = "BUY" ∨ p.1 = "SELL" ∨ p.1 = "NEUTRAL") :
    ((consensusOfSignals sigs).buy_votes > (consensusOfSignals sigs).sell_votes ∧
      (consensusOfSignals sigs).buy_votes > (consensusOfSignals sigs).neutral_votes →
      (consensusOfSignals sigs).overall_recommendation = "BUY") ∧
    ((consensusOfSignals sigs).sell_votes > (consensusOfSignals sigs).buy_votes ∧
      (consensusOfSignals sigs).sell_votes > (consensusOfSignals sigs).neutral_votes →
      (consensusOfSignals sigs).overall_recommendation = "SELL") ∧
    ((consensusOfSignals sigs).neutral_votes > (consensusOfSignals sigs).buy_votes ∧
      (consensusOfSignals sigs).neutral_votes > (consensusOfSignals sigs).sell_votes →
      (consensusOfSignals sigs).overall_recommendation = "NEUTRAL") ∧
    (¬((consensusOfSignals sigs).buy_votes > (consensusOfSignals sigs).sell_votes ∧
        (consensusOfSignals sigs).buy_votes > (consensusOfSignals sigs).neutral_votes) →
      ¬((consensusOfSignals sigs).sell_votes > (consensusOfSignals sigs).buy_votes ∧
        (consensusOfSignals sigs).sell_votes > (consensusOfSignals sigs).neutral_votes) →
      (consensusOfSignals sigs).overall_recommendation = "NEUTRAL") ∧
    (∀ r c, sigs = [(r, c)] → (consensusOfSignals sigs).overall_recommendation = r) := by
  refine ⟨?_, ?_, ?_, ?_, ?_⟩
  · intro h
    rw [overall_proj, if_pos h]
  · rintro ⟨h1, h2⟩
    rw [overall_proj, if_neg (by rintro ⟨hb, _⟩; omega), if_pos ⟨h1, h2⟩]
  · rintro ⟨h1, h2⟩
    rw [overall_proj, if_neg (by rintro ⟨_, hb⟩; omega),
      if_neg (by rintro ⟨_, hs⟩; omega)]
  · intro h1 h2
    rw [overall_proj, if_neg h1, if_neg h2]
  · rintro r c rfl
    rcases hall (r, c) (by simp) with h | h | h <;> subst h <;>
      simp [overall_eq]

/-- C4 witness: a single SELL signal yields overall recommendation SELL. -/
theorem C4_witness :
    (consensusOfSignals [("SELL", "LOW")]).overall_recommendation = "SELL" :=
  (C4_overall_recommendation [("SELL", "LOW")] (by decide)).2.2.2.2 "SELL" "LOW" rfl

/-- C5: for a tradingview result with a summary recommendation, the extracted
confidence is HIGH exactly when one side's signal count exceeds 1.5 times the
other's, MEDIUM otherwise, and never LOW. -/
theorem C5_tradingview_confidence (sm : Summary) (sg : Option SignalsObj) (r : String)
    (hrec : sm.recommendation = some r) (hne : r ≠ "") :
    extract "tradingview" ⟨none, some sm, sg⟩ =
      some (pyUpper r,
        if sm.buy_signals.getD 0 > sm.sell_signals.getD 0 * (3 / 2 : ℚ) ∨
            sm.sell_signals.getD 0 > sm.buy_signals.getD 0 * (3 / 2 : ℚ)
        then "HIGH" else "MEDIUM") ∧
    (∀ rc, extract "tradingview" ⟨none, some sm, sg⟩ = some rc → rc.2 ≠ "LOW") := by
  have hx : extract "tradingview" ⟨none, some sm, sg⟩ =
      some (pyUpper r,
        if sm.buy_signals.getD 0 > sm.sell_signals.getD 0 * (3 / 2 : ℚ) ∨
            sm.sell_signals.getD 0 > sm.buy_signals.getD 0 * (3 / 2 : ℚ)
        then "HIGH" else "MEDIUM") := by
    simp only [extract, rawExtract, hrec]
    simp [hne]
    split_ifs <;> tauto
  refine ⟨hx, ?_⟩
  intro rc hrc
  rw [hx] at hrc
  cases hrc
  split_ifs <;> simp

/-- C5 witness: summary counts 8/2 give HIGH, 5/4 give MEDIUM. -/
theorem C5_witness :
    extract "tradingview" ⟨none, some ⟨some "BUY", some 8, some 2⟩, none⟩ =
      some ("BUY", "HIGH") ∧
    extract "tradingview" ⟨none, some ⟨some "BUY", some 5, some 4⟩, none⟩ =
      some ("BUY", "MEDIUM") := by
  constructor
  · exact (C5_tradingview_confidence ⟨some "BUY", some 8, some 2⟩ none "BUY" rfl
      (by decide)).1.trans (by norm_num; decide)
  · exact (C5_tradingview_confidence ⟨some "BUY", some 5, some 4⟩ none "BUY" rfl
      (by decide)).1.trans (by norm_num; decide)

/-- Definitional form of the agreement level in terms of the consensus
projections themselves. -/
lemma agreement_proj (sigs : List (String × String)) :
    (consensusOfSignals sigs).agreement_level =
      (if (consensusOfSignals sigs).total_sources = 0 then "NO_DATA"
       else if (consensusOfSignals sigs).total_sources = 1 then "SINGLE_SOURCE"
       else
        if ((max (consensusOfSignals sigs).buy_votes (max (consensusOfSignals sigs).sell_votes
              (consensusOfSignals sigs).neutral_votes) : ℕ) : ℚ) /
            ((consensusOfSignals sigs).total_sources : ℚ) ≥ 3 / 4 then "STRONG_AGREEMENT"
        else if ((max (consensusOfSignals sigs).buy_votes (max (consensusOfSignals sigs).sell_votes
              (consensusOfSignals sigs).neutral_votes) : ℕ) : ℚ) /
            ((consensusOfSignals sigs).total_sources : ℚ) ≥ 1 / 2 then "MODERATE_AGREEMENT"
        else "MIXED_SIGNALS") := rfl

/-- C6: agreement level is NO_DATA for zero used signals, SINGLE_SOURCE for
exactly one, and otherwise classified by the ratio of the largest vote count
to `total_sources` with thresholds 0.75 and 0.5. -/
theorem C6_agreement_level (sigs : List (String × String)) :
    ((consensusOfSignals sigs).total_sources = 0 →
      (consensusOfSignals sigs).agreement_level = "NO_DATA") ∧
    ((consensusOfSignals sigs).total_sources = 1 →
      (consensusOfSignals sigs).agreement_level = "SINGLE_SOURCE") ∧
    (2 ≤ (consensusOfSignals sigs).total_sources →
      (((max (consensusOfSignals sigs).buy_votes (max (consensusOfSignals sigs).sell_votes
            (consensusOfSignals sigs).neutral_votes) : ℕ) : ℚ) /
          ((consensusOfSignals sigs).total_sources : ℚ) ≥ 3 / 4 →
        (consensusOfSignals sigs).agreement_level = "STRONG_AGREEMENT") ∧
      (((max (consensusOfSignals sigs).buy_votes (max (consensusOfSignals sigs).sell_votes
            (consensusOfSignals sigs).neutral_votes) : ℕ) : ℚ) /
          ((consensusOfSignals sigs).total_sources : ℚ) ≥ 1 / 2 →
        ((max (consensusOfSignals sigs).buy_votes (max (consensusOfSignals sigs).sell_votes
            (consensusOfSignals sigs).neutral_votes) : ℕ) : ℚ) /
          ((consensusOfSignals sigs).total_sources : ℚ) < 3 / 4 →
        (consensusOfSignals sigs).agreement_level = "MODERATE_AGREEMENT") ∧
      (((max (consensusOfSignals sigs).buy_votes (max (consensusOfSignals sigs).sell_votes
            (consensusOfSignals sigs).neutral_votes) : ℕ) : ℚ) /
          ((consensusOfSignals sigs).total_sources : ℚ) < 1 / 2 →
        (consensusOfSignals sigs).agreement_level = "MIXED_SIGNALS")) := by
  refine ⟨?_, ?_, ?_⟩
  · intro h0
    rw [agreement_proj, if_pos h0]
  · intro h1
    rw [agreement_proj, if_neg (by omega), if_pos h1]
  · intro h2
    refine ⟨?_, ?_, ?_⟩
    · intro hr
      rw [agreement_proj, if_neg (by omega), if_neg (by omega), if_pos hr]
    · intro hr1 hr2
      rw [agreement_proj, if_neg (by omega), if_neg (by omega),
        if_neg (not_le.mpr hr2), if_pos hr1]
    · intro hr
      rw [agreement_proj, if_neg (by omega), if_neg (by omega),
        if_neg (not_le.mpr (lt_of_lt_of_le hr (by norm_num))), if_neg (not_le.mpr hr)]

/-- C6 witness: two BUY, one SELL, one NEUTRAL give ratio 2/4 and
MODERATE_AGREEMENT. -/
theorem C6_witness :
    (consensusOfSignals
      [("BUY", "HIGH"), ("BUY", "HIGH"), ("SELL", "LOW"), ("NEUTRAL", "MEDIUM")]).agreement_level =
      "MODERATE_AGREEMENT" :=
  ((C6_agreement_level
      [("BUY", "HIGH"), ("BUY", "HIGH"), ("SELL", "LOW"), ("NEUTRAL", "MEDIUM")]).2.2
    (by decide)).2.1
    (by simp [buy_votes_eq, sell_votes_eq, neutral_votes_eq, total_sources_eq]; norm_num)
    (by simp [buy_votes_eq, sell_votes_eq, neutral_votes_eq, total_sources_eq]; norm_num)

/-- Modelled from the spec: the confidence weight mapping LOW→1, MEDIUM→2,
HIGH→3 as the claim words it (meaningful on the three levels only). -/
def specWeight (c : String) : ℚ :=
  if c = "LOW" then 1 else if c = "MEDIUM" then 2 else 3

/-- C7: average confidence is the mean of the signals' weights (LOW→1,
MEDIUM→2, HIGH→3) classified with thresholds 2.5 and 1.5, and LOW for zero
signals. -/
theorem C7_average_confidence (sigs : List (String × String))
    (hconf : ∀ p ∈ sigs, p.2 = "LOW" ∨ p.2 = "MEDIUM" ∨ p.2 = "HIGH") :
    (sigs.length = 0 → (consensusOfSignals sigs).average_confidence = "LOW") ∧
    (0 < sigs.length →
      ((sigs.map (fun p => specWeight p.2)).sum / (sigs.length : ℚ) ≥ 5 / 2 →
        (consensusOfSignals sigs).average_confidence = "HIGH") ∧
      ((sigs.map (fun p => specWeight p.2)).sum / (sigs.length : ℚ) ≥ 3 / 2 →
        (sigs.map (fun p => specWeight p.2)).sum / (sigs.length : ℚ) < 5 / 2 →
        (consensusOfSignals sigs).average_confidence = "MEDIUM") ∧
      ((sigs.map (fun p => specWeight p.2)).sum / (sigs.length : ℚ) < 3 / 2 →
        (consensusOfSignals sigs).average_confidence = "LOW")) := by
  have hsum : ((sigs.map Prod.snd).map confidenceMap).sum =
      (sigs.map (fun p => specWeight p.2)).sum := by
    rw [List.map_map]
    apply congrArg
    apply List.map_congr_left
    intro p hp
    rcases hconf p hp with h | h | h <;> simp [confidenceMap, specWeight, h, Function.comp]
  have hlen : (sigs.map Prod.snd).length = sigs.length := List.length_map sigs Prod.snd
  constructor
  · intro h0
    have : sigs = [] := List.length_eq_zero.mp h0
    subst this
    rfl
  · intro hpos
    have hne : ¬(sigs.map Prod.snd).isEmpty := by
      rw [List.isEmpty_iff]
      intro hnil
      rw [← hlen, hnil] at hpos
      simp at hpos
    refine ⟨?_, ?_, ?_⟩
    · intro hr
      rw [average_confidence_eq, if_neg hne, hsum, hlen, if_pos hr]
    · intro hr1 hr2
      rw [average_confidence_eq, if_neg hne, hsum, hlen, if_neg (not_le.mpr hr2), if_pos hr1]
    · intro hr
      rw [average_confidence_eq, if_neg hne, hsum, hlen,
        if_neg (not_le.mpr (lt_of_lt_of_le hr (by norm_num))), if_neg (not_le.mpr hr)]

/-- C7 witness: weights (3+3+1+2)/4 = 2.25 give MEDIUM. -/
theorem C7_witness :
    (consensusOfSignals
      [("BUY", "HIGH"), ("BUY", "HIGH"), ("SELL", "LOW"), ("NEUTRAL", "MEDIUM")]).average_confidence =
      "MEDIUM" :=
  ((C7_average_confidence
      [("BUY", "HIGH"), ("BUY", "HIGH"), ("SELL", "LOW"), ("NEUTRAL", "MEDIUM")]
      (by decide)).2 (by decide)).2.1
    (by simp [specWeight]; norm_num)
    (by simp [specWeight]; norm_num)

/-- The consensus depends only on the recommendation list and the
confidence-weight list. -/
lemma consensusOfSignals_congr (xs ys : List (String × String))
    (hfst : xs.map Prod.fst = ys.map Prod.fst)
    (hsnd : (xs.map Prod.snd).map confidenceMap = (ys.map Prod.snd).map confidenceMap) :
    consensusOfSignals xs = consensusOfSignals ys := by
  have hlen : xs.length = ys.length := by
    have h := congrArg List.length hfst
    simpa using h
  have hlen2 : (xs.map Prod.snd).length = (ys.map Prod.snd).length := by
    simp [hlen]
  have hie : (xs.map Prod.snd).isEmpty = (ys.map Prod.snd).isEmpty := by
    rw [Bool.eq_iff_iff]
    simp only [List.isEmpty_iff, ← List.length_eq_zero, hlen2]
  unfold consensusOfSignals
  simp only [Consensus.mk.injEq]
  refine ⟨?_, ?_, ?_, ?_, ?_, ?_, ?_⟩
  · rw [hfst]
  · rw [hfst]
  · rw [hfst]
  · rw [hfst]
  · rw [hfst]
  · rw [hie, hsnd, hlen2]
  · rw [hfst]

/-- A payload carrying an error marker
(`{'error': str(e)}` as built by `AggregatedSignals.get`). -/
def errData : SourceData := ⟨some "boom", none, none⟩

/-- C8: a source with an error marker is skipped — inserting it anywhere in
the sources map leaves the consensus unchanged — and when every source fails
or abstains the result is the NO_DATA consensus rather than a failure. -/
theorem C8_error_isolation :
    (∀ (l1 l2 : List (String × SourceData)) (name msg : String) (d : SourceData),
      d.error = some msg →
      calculateConsensus (l1 ++ (name, d) :: l2) = calculateConsensus (l1 ++ l2)) ∧
    (∀ sources : List (String × SourceData),
      (∀ p ∈ sources, extract p.1 p.2 = none) →
      calculateConsensus sources =
        { overall_recommendation := "NEUTRAL", buy_votes := 0, sell_votes := 0,
          neutral_votes := 0, total_sources := 0, average_confidence := "LOW",
          agreement_level := "NO_DATA" }) := by
  constructor
  · intro l1 l2 name msg d hd
    have hx : extract name d = none := by simp [extract, hd]
    rw [calculateConsensus, calculateConsensus, List.filterMap_append,
      List.filterMap_append, List.filterMap_cons, hx]
  · intro sources hall
    have hnil : sources.filterMap (fun p => extract p.1 p.2) = [] := by
      rw [List.filterMap_eq_nil_iff]
      intro p hp
      exact hall p hp
    rw [calculateConsensus, hnil]
    decide

/-- C8 witness: an error source inserted after a BUY source changes nothing,
and an all-error map produces the NO_DATA consensus. -/
theorem C8_witness :
    calculateConsensus [("alphavantage", avData "BUY" "HIGH"), ("truefx", errData)] =
      calculateConsensus [("alphavantage", avData "BUY" "HIGH")] ∧
    calculateConsensus [("tradingview", errData), ("alphavantage", errData)] =
      { overall_recommendation := "NEUTRAL", buy_votes := 0, sell_votes := 0,
        neutral_votes := 0, total_sources := 0, average_confidence := "LOW",
        agreement_level := "NO_DATA" } :=
  ⟨C8_error_isolation.1 [("alphavantage", avData "BUY" "HIGH")] [] "truefx" "boom" errData rfl,
   C8_error_isolation.2 [("tradingview", errData), ("alphavantage", errData)] (by decide)⟩

/-- C10: a signal with an unrecognized confidence string is not rejected —
the consensus is identical to the one where that confidence is LOW (weight 1),
and the signal still counts toward `total_sources`. -/
theorem C10_unknown_confidence (l1 l2 : List (String × String)) (r c : String)
    (hL : c ≠ "LOW") (hM : c ≠ "MEDIUM") (hH : c ≠ "HIGH") :
    consensusOfSignals (l1 ++ (r, c) :: l2) = consensusOfSignals (l1 ++ (r, "LOW") :: l2) ∧
    (consensusOfSignals (l1 ++ (r, c) :: l2)).total_sources = l1.length + l2.length + 1 := by
  constructor
  · apply consensusOfSignals_congr
    · simp
    · have hcm : confidenceMap c = confidenceMap "LOW" := by
        simp [confidenceMap, hL, hM, hH]
      simp [hcm]
  · rw [total_sources_eq]
    simp
    omega

/-- C10 witness: a BUY vote with confidence `SUPER` is counted and weighted
like LOW. -/
theorem C10_witness :
    consensusOfSignals [("BUY", "HIGH"), ("BUY", "SUPER")] =
      consensusOfSignals [("BUY", "HIGH"), ("BUY", "LOW")] ∧
    (consensusOfSignals [("BUY", "HIGH"), ("BUY", "SUPER")]).total_sources = 2 :=
  C10_unknown_confidence [("BUY", "HIGH")] [] "BUY" "SUPER"
    (by decide) (by decide) (by decide)

/-- A tradingview payload without an error marker and without a summary
object. -/
def noSummaryTv : SourceData := ⟨none, none, none⟩

/-- C9 counterexample: the tradingview source carries no error, yet the
rendered summary has only the four consensus fragments — no
`TradingView: ...` fragment — because the payload lacks a summary object. -/
theorem C9_counterexample :
    noSummaryTv.error = none ∧
    generateSummary [("tradingview", noSummaryTv), ("alphavantage", errData),
        ("twelvedata", errData), ("truefx", errData)]
      (calculateConsensus [("tradingview", noSummaryTv), ("alphavantage", errData),
        ("twelvedata", errData), ("truefx", errData)]) =
      "Consensus Recommendation: NEUTRAL | Agreement Level: NO_DATA | Votes - BUY: 0, SELL: 0, NEUTRAL: 0 | Average Confidence: LOW" := by
  constructor
  · rfl
  · rw [calculateConsensus_eq]
    set_option maxRecDepth 100000 in decide

/-- C9 (amended): on the canonical four-provider map the summary is the
`" | "`-join of the four consensus fragments followed by one
`"{DisplayName}: {recommendation}"` fragment per provider that has no error
*and* exposes its summary/signals sub-object (a missing recommendation key
renders as `N/A`), in the fixed provider order, with truefx excluded; the
renderer is a pure function of its two arguments. -/
theorem C9_summary_rendering (p1 p2 p3 p4 : SourceData) (c : Consensus) :
    generateSummary [("tradingview", p1), ("alphavantage", p2), ("twelvedata", p3),
        ("truefx", p4)] c =
      String.intercalate " | "
        (["Consensus Recommendation: " ++ c.overall_recommendation,
          "Agreement Level: " ++ c.agreement_level,
          "Votes - BUY: " ++ toString c.buy_votes ++ ", SELL: " ++ toString c.sell_votes ++
            ", NEUTRAL: " ++ toString c.neutral_votes,
          "Average Confidence: " ++ c.average_confidence] ++
         (match p1.error, p1.summary with
          | none, some sm => ["TradingView: " ++ sm.recommendation.getD "N/A"]
          | _, _ => []) ++
         (match p2.error, p2.signals with
          | none, some sg => ["Alphavantage: " ++ sg.recommendation.getD "N/A"]
          | _, _ => []) ++
         (match p3.error, p3.signals with
          | none, some sg => ["Twelvedata: " ++ sg.recommendation.getD "N/A"]
          | _, _ => [])) := by
  obtain ⟨e1, s1, g1⟩ := p1
  obtain ⟨e2, s2, g2⟩ := p2
  obtain ⟨e3, s3, g3⟩ := p3
  obtain ⟨e4, s4, g4⟩ := p4
  have ht1 : pyTitle "alphavantage" = "Alphavantage" := by decide
  have ht2 : pyTitle "twelvedata" = "Twelvedata" := by decide
  cases e1 <;> cases s1 <;> cases e2 <;> cases g2 <;> cases e3 <;> cases g3 <;> cases e4 <;>
    simp [generateSummary, ht1, ht2]

end VercelDeployment
